import Mathlib

/-!
Verification development for the `ai-agent-cli` repository.

The definitions below are a shallow embedding of the conversation/session
orchestration core of the CLI: the local token store, the session resolver,
the tool registry, the conversation store, the model gateway wrapper and the
two interactive loops (tool-mode chat loop and agent loop).

Conventions used throughout:
* JavaScript timestamps (`Date.getTime()`) are modelled as `Int` milliseconds.
* JavaScript strings are modelled as Lean `String`; `String.prototype.slice`
  and `.toLowerCase()` are modelled character-wise (the CLI only ever feeds
  them terminal input).
* The interactive prompt library and the database-backed conversation store
  are external collaborators; they are modelled from the spec where noted.
* Quotation marks inside user-facing error strings are elided.
-/

namespace AgentCli

/-- A persisted chat message: a role (user or assistant) and its content,
as stored by `chatSvc.addMessage` and replayed by `chatSvc.getMessages`. -/
structure Message where
  role : String
  content : String
deriving Repr, DecidableEq

/-- The locally persisted credential record, as written by `storeToken` in
`lib/token.ts`: `{access_token, refresh_token, token_type, scope,
expires_at, created_at}`.  Timestamps are `Int` milliseconds since epoch
(the file stores ISO strings; `isTokenExpired` immediately converts with
`new Date(...).getTime()`). -/
structure Credential where
  access_token : Option String
  refresh_token : Option String
  token_type : Option String
  scope : Option String
  expires_at : Option Int
  created_at : Option Int
deriving Repr, DecidableEq

/-- The authenticated user record looked up through the session table. -/
structure User where
  id : String
  name : String
  email : String
deriving Repr, DecidableEq

/-- Embedding of `isTokenExpired` from `lib/token.ts`:
returns `true` when there is no stored token or it has no `expires_at`,
otherwise returns `expiresAt.getTime() - now.getTime() < 5 * 60 * 1000`. -/
def isTokenExpired (token : Option Credential) (now : Int) : Bool :=
  match token with
  | none => true
  | some t =>
    match t.expires_at with
    | none => true
    | some expiresAt => decide (expiresAt - now < 5 * 60 * 1000)

/-- Embedding of the credential gate of `getUserFromToken` in
`chat-with-tool.ts` (identical in `chat-with-ai-agent.ts`): it throws when
the stored token is absent or its `access_token` is falsy, then resolves the
user by session lookup and throws when no user matches.  Notably it never
consults `expires_at`.  The session table lookup (`prisma.user.findFirst`)
is passed in as the function `resolveUser`. -/
def getUserFromToken (token : Option Credential)
    (resolveUser : String → Option User) : Except String User :=
  match token with
  | none => .error "Not authenticated. Please login first."
  | some t =>
    match t.access_token with
    | none => .error "Not authenticated. Please login first."
    | some a =>
      if a = "" then .error "Not authenticated. Please login first."
      else
        match resolveUser a with
        | none => .error "Invalid token. Please login again."
        | some u => .ok u

/-- Embedding of `requireAuth` from `lib/token.ts`: exits when no token is
stored, exits when `isTokenExpired` holds, otherwise returns the token.
(Its process exits are modelled as `Except.error`.) -/
def requireAuth (token : Option Credential) (now : Int) :
    Except String Credential :=
  match token with
  | none => .error "You are not logged in. Please login to authenticate."
  | some t =>
    if isTokenExpired (some t) now then
      .error "Your token has expired. Please login to re-authenticate."
    else .ok t

/-- True exactly on the `Except.ok` constructor. -/
def exceptOk {ε α : Type} : Except ε α → Bool
  | .ok _ => true
  | .error _ => false

/-- The observable outcome of one `AIService.sendMessage` call in
`openai-service.ts`: the aggregated `content` returned to the caller and the
list of arguments passed to `onChunk`, in call order. -/
structure SendResult where
  content : String
  onChunkCalls : List String
deriving Repr, DecidableEq

/-- Embedding of the streaming loop of `AIService.sendMessage`: iterate the
fragments of `result.textStream` in arrival order, appending each chunk to
`fullResponse` and invoking `onChunk(chunk)`; the returned object carries
`content: fullResponse`. -/
def sendMessageRun (fragments : List String) : SendResult :=
  let folded := fragments.foldl
    (fun (acc : String × List String) chunk =>
      (acc.1 ++ chunk, acc.2 ++ [chunk])) ("", [])
  ⟨folded.1, folded.2⟩

/-- The relevant fields of the `streamConfig` object built by
`AIService.sendMessage`: the tool declarations and the `maxSteps` cap.
A field left unset in the code is `none` here. -/
structure StreamConfig where
  tools : Option (List String)
  maxSteps : Option Nat
deriving Repr, DecidableEq

/-- Embedding of the configuration branch of `AIService.sendMessage`:
`if (tools && Object.keys(tools).length > 0) { streamConfig.tools = tools;
streamConfig.maxSteps = 5; }` — tools are modelled by their key list. -/
def mkStreamConfig : Option (List String) → StreamConfig
  | some ts => if 0 < ts.length then ⟨some ts, some 5⟩ else ⟨none, none⟩
  | none => ⟨none, none⟩

/-- Modelled from the spec: the hosted model API (`streamText` of the `ai`
library, an external collaborator) honours the configured step cap — "the
model may interleave tool invocations with text generation across at most a
fixed small number of tool-use steps (cap = 5) before a final answer is
forced".  With no cap configured the library runs a single step.  The number
of tool-use steps actually executed is therefore the minimum of the number
the model response requests and the configured cap. -/
def executedToolSteps (cfg : StreamConfig) (requested : Nat) : Nat :=
  min requested (cfg.maxSteps.getD 1)

/-- Modelled from the spec: `chatSvc.formatMessages` (in the repository's
`chat-service.ts`, not part of the provided sources) maps each stored
message to a model-ready `{role, content}` pair in original order. -/
def formatMessages (ms : List Message) : List Message :=
  ms.map (fun m => ⟨m.role, m.content⟩)

/-- The arguments of one `aiService.sendMessage` invocation as seen from the
orchestrator: the message transcript and the tool declarations. -/
structure SendMessageCall where
  messages : List Message
  tools : Option (List String)
deriving Repr, DecidableEq

/-- Embedding of the gateway invocation made by `getAiResponse` in
`chat-with-tool.ts`: it loads the full history (`chatSvc.getMessages`),
formats it (`chatSvc.formatMessages`), and then calls
`aiService.sendMessage(aiMessages, onChunk)` with exactly two arguments —
the `tools` parameter is left at its default `undefined` no matter what the
tool registry currently holds (`getEnabledTools` is imported by the file but
never called), which is why the registry's enabled set is a parameter here
that the result does not depend on. -/
def getAiResponseSendCall (history : List Message)
    (enabledTools : List String) : SendMessageCall :=
  ⟨formatMessages history, none⟩

/-- Model of JavaScript `String.prototype.toLowerCase()` as the CLI uses it
(ASCII terminal input), mapping each character through `Char.toLower`. -/
def toLowerCase (s : String) : String :=
  ⟨s.data.map Char.toLower⟩

/-- The title computed by `updateConversationTitle` in `chat-with-tool.ts`:
`userInput.slice(0, 50) + (userInput.length > 50 ? "..." : "")`. -/
def titleFor (userInput : String) : String :=
  userInput.take 50 ++ (if 50 < userInput.length then "..." else "")

/-- Embedding of `updateConversationTitle`: when the observed message count
equals 1 it calls `chatSvc.updateTitle` with the truncated title, otherwise
it does nothing.  The returned value is the title passed to `updateTitle`
(`none` when `updateTitle` is not invoked). -/
def updateConversationTitle (userInput : String) (messageCount : Nat) :
    Option String :=
  if messageCount = 1 then some (titleFor userInput) else none

/-- Model of JavaScript `String.prototype.trim()` over the character list:
drop whitespace from the front and from the back. -/
def trimModel (s : String) : String :=
  ⟨(((s.data.dropWhile Char.isWhitespace).reverse.dropWhile
      Char.isWhitespace).reverse)⟩

/-- Embedding of the `validate` callback of the tool-chat prompt in
`chatLoop`: rejects input whose trimmed form is empty, returning the error
string shown to the user; accepts (returns `none`) otherwise. -/
def chatValidate (value : String) : Option String :=
  if (trimModel value).length = 0 then some "Message cannot be empty"
  else none

/-- Embedding of the `validate` callback of the agent prompt in
`agentLoop`: rejects input whose trimmed form is empty or shorter than 10
characters. -/
def agentValidate (value : String) : Option String :=
  if (trimModel value).length = 0 then some "Description cannot be empty"
  else if (trimModel value).length < 10 then
    some "Please provide more details (at least 10 characters)"
  else none

/-- Modelled from the spec: the terminal interaction layer's text prompt
(`text({ validate })`) re-prompts in place while `validate` rejects, and
resolves with the first raw input that passes validation.  The raw inputs
the user would type are supplied as a list; `none` means the supply was
exhausted while still re-prompting. -/
def promptText (validate : String → Option String) :
    List String → Option String
  | [] => none
  | raw :: rest =>
    match validate raw with
    | some _ => promptText validate rest
    | none => some raw

/-- The mutable state one tool-chat session accumulates: the conversation's
persisted messages (Conversation Store, modelled from the spec as an
append-only list) and the arguments of the `chatSvc.updateTitle` calls made
so far, in order. -/
structure LoopState where
  messages : List Message
  titleCalls : List String
deriving Repr, DecidableEq

/-- One iteration's worth of external events for the tool-chat loop: either
the user cancels at the prompt (`isCancel`), or the prompt resolves with a
validated input string together with the outcome the model gateway will
produce for that turn (`Except.error` for a transport/API failure). -/
inductive ChatEvent where
  | cancel : ChatEvent
  | input : String → Except String String → ChatEvent
deriving Repr

/-- How a run of the tool-chat loop ends.  `cancelled` is the
`process.exit(0)` taken on `isCancel` (which bypasses the caller entirely),
`exited` is the `break` on the exit sentinel, `fatal` is an exception
propagating out of the loop to `startToolChat`'s catch block, and `pending`
means the supplied event list ran out while the loop was still awaiting
input. -/
inductive LoopResult where
  | cancelled : LoopState → LoopResult
  | exited : LoopState → LoopResult
  | fatal : LoopState → String → LoopResult
  | pending : LoopState → LoopResult
deriving Repr, DecidableEq

/-- Embedding of the `while (true)` body of `chatLoop` in
`chat-with-tool.ts`.  Per iteration: read input (cancellation exits the
process), break on the case-insensitive exit sentinel before persisting
anything, otherwise persist the user message, observe the message count,
call the gateway (a failure propagates out of the loop — there is no
try/catch in `chatLoop`), persist the assistant message, and run
`updateConversationTitle` with the observed count. -/
def chatLoopRun : LoopState → List ChatEvent → LoopResult
  | st, [] => .pending st
  | st, ChatEvent.cancel :: _ => .cancelled st
  | st, ChatEvent.input s res :: rest =>
    if toLowerCase s = "exit" then .exited st
    else
      let st1 : LoopState :=
        { st with messages := st.messages ++ [⟨"user", s⟩] }
      let observed := st1.messages.length
      match res with
      | .error e => .fatal st1 e
      | .ok r =>
        let st2 : LoopState :=
          { st1 with messages := st1.messages ++ [⟨"assistant", r⟩] }
        let st3 : LoopState :=
          { st2 with titleCalls :=
              st2.titleCalls ++ (updateConversationTitle s observed).toList }
        chatLoopRun st3 rest

/-- The session state a `LoopResult` carries. -/
def stateOf : LoopResult → LoopState
  | .cancelled st => st
  | .exited st => st
  | .fatal st _ => st
  | .pending st => st

/-- The result of the application-generation collaborator in agent mode
(`generateApplication` in `agent.config.ts`): a success flag plus the
artifact summary fields the loop reports. -/
structure AppGenResult where
  success : Bool
  folderName : String
  files : List String
  appDir : String
  commands : List String
deriving Repr, DecidableEq

/-- The assistant summary message `agentLoop` persists on a successful
generation. -/
def responseMessage (r : AppGenResult) : String :=
  "Generated application: " ++ r.folderName ++ "\n" ++
  "Files created: " ++ toString r.files.length ++ "\n" ++
  "Location: " ++ r.appDir ++ "\n\n" ++
  "Setup commands:\n" ++ String.intercalate "\n" r.commands

/-- The agent conversation's persisted messages. -/
structure AgentState where
  messages : List Message
deriving Repr, DecidableEq

/-- One iteration's worth of external events for the agent loop: a prompt
cancellation, or a validated input together with the generation outcome and
the user's answer to the follow-up confirm ("generate another?" on success,
"try again?" on failure).  A cancellation at the confirm behaves as `false`
(both break), so it is folded into the Boolean. -/
inductive AgentEvent where
  | cancel : AgentEvent
  | input : String → Except String AppGenResult → Bool → AgentEvent
deriving Repr

/-- How a run of the agent loop ends; there is no fatal outcome because the
loop catches generation errors itself. -/
inductive AgentResult where
  | cancelled : AgentState → AgentResult
  | exited : AgentState → AgentResult
  | pending : AgentState → AgentResult
deriving Repr, DecidableEq

/-- Embedding of the `while (true)` body of `agentLoop` in
`chat-with-ai-agent.ts`.  Per iteration: read input, break on the exit
sentinel before persisting, otherwise persist the user message and invoke
`generateApplication` inside a try/catch: on success persist the summary
and confirm whether to continue; on a falsy/unsuccessful result throw
"Generation returned no result" into the same catch; in the catch persist
an `Error: ...` assistant message and confirm whether to retry. -/
def agentLoopRun : AgentState → List AgentEvent → AgentResult
  | st, [] => .pending st
  | st, AgentEvent.cancel :: _ => .cancelled st
  | st, AgentEvent.input s gen answer :: rest =>
    if toLowerCase s = "exit" then .exited st
    else
      let st1 : AgentState := ⟨st.messages ++ [⟨"user", s⟩]⟩
      match gen with
      | .ok r =>
        if r.success then
          let st2 : AgentState :=
            ⟨st1.messages ++ [⟨"assistant", responseMessage r⟩]⟩
          if answer then agentLoopRun st2 rest else .exited st2
        else
          let st2 : AgentState :=
            ⟨st1.messages ++
              [⟨"assistant", "Error: Generation returned no result"⟩]⟩
          if answer then agentLoopRun st2 rest else .exited st2
      | .error e =>
        let st2 : AgentState :=
          ⟨st1.messages ++ [⟨"assistant", "Error: " ++ e⟩]⟩
        if answer then agentLoopRun st2 rest else .exited st2

/-- The session state an `AgentResult` carries. -/
def agentStateOf : AgentResult → AgentState
  | .cancelled st => st
  | .exited st => st
  | .pending st => st

/-- Modelled from the spec: `resetTools` of the Tool Registry
(`tool.config.ts`, not among the provided sources) clears the process-wide
enabled set. -/
def resetTools : List String :=
  []

/-- Modelled from the spec: `enableTools(ids)` replaces the enabled set. -/
def enableTools (ids : List String) : List String :=
  ids

/-- What a tool-mode session leaves behind when it ends: the registry's
enabled set at process end and the process exit code. -/
structure SessionEnd where
  finalEnabledTools : List String
  exitCode : Nat
deriving Repr, DecidableEq

/-- Embedding of the exit paths of `startToolChat` in `chat-with-tool.ts`
around a finished loop, given the registry's enabled set when the loop was
entered.  A cancellation inside the loop calls `process.exit(0)` directly,
bypassing both the `resetTools()` after `chatLoop` and the catch block, so
the enabled set is left untouched; the sentinel break reaches
`resetTools()` and the normal outro; a propagated error reaches the catch
block, which calls `resetTools()` and `process.exit(1)`.  A `pending` run
has not ended. -/
def startToolChatEnd (enabled : List String) : LoopResult → Option SessionEnd
  | .cancelled _ => some ⟨enabled, 0⟩
  | .exited _ => some ⟨resetTools, 0⟩
  | .fatal _ _ => some ⟨resetTools, 1⟩
  | .pending _ => none

/-- A whole tool-mode session: run the chat loop on the events, then take
`startToolChat`'s exit path. -/
def startToolChatRun (enabled : List String) (st : LoopState)
    (events : List ChatEvent) : Option SessionEnd :=
  startToolChatEnd enabled (chatLoopRun st events)

end AgentCli

namespace AgentCli

/-- C3 counterexample: a credential expiring exactly 5 minutes (300000 ms)
after the current instant.  The claim says `isTokenExpired` returns `true`
at this boundary; the code computes `300000 - 0 < 300000`, which is false,
so it returns `false`. -/
theorem boundary_five_minutes_not_expired :
    isTokenExpired (some ⟨some "tok", none, none, none, some 300000, none⟩) 0
      = false := by
  decide

/-- C3 (amended): `isTokenExpired` returns `true` for an absent credential
and for one without `expires_at`; for one carrying `expires_at = e` it
returns `false` exactly when `e` is at least 5 minutes after `now` — so a
credential expiring strictly more than 5 minutes in the future is not
expired, one expiring exactly at the 5-minute boundary is also not expired,
and anything below the boundary (including past expiry) is expired. -/
theorem isTokenExpired_characterization
    (now e : Int) (a r ty sc : Option String) (ca : Option Int) :
    isTokenExpired none now = true ∧
    isTokenExpired (some ⟨a, r, ty, sc, none, ca⟩) now = true ∧
    (isTokenExpired (some ⟨a, r, ty, sc, some e, ca⟩) now = false ↔
      now + 5 * 60 * 1000 ≤ e) := by
  refine ⟨rfl, rfl, ?_⟩
  simp only [isTokenExpired, decide_eq_false_iff_not, not_lt]
  omega

/-- String append is associative (helper, proved through the `data` lists). -/
theorem strAppendAssoc (a b c : String) : (a ++ b) ++ c = a ++ (b ++ c) := by
  apply String.ext
  simp [String.data_append, List.append_assoc]

/-- `String.join` of a cons (helper). -/
theorem joinCons (f : String) (fs : List String) :
    String.join (f :: fs) = f ++ String.join fs := by
  apply String.ext
  simp [String.data_join, String.data_append]

/-- Generalized accumulator form of the streaming fold (helper). -/
theorem sendMessageFoldAux (fs : List String) (a : String) (l : List String) :
    fs.foldl (fun (acc : String × List String) chunk =>
        (acc.1 ++ chunk, acc.2 ++ [chunk])) (a, l)
      = (a ++ String.join fs, l ++ fs) := by
  induction fs generalizing a l with
  | nil => simp [String.join]
  | cons f fs ih =>
    simp only [List.foldl_cons, ih, joinCons]
    refine Prod.ext ?_ (by simp)
    simp [strAppendAssoc]

/-- C6: for every finite fragment sequence, `sendMessage` invokes `onChunk`
exactly once per fragment in arrival order, and the `content` field of the
returned result is the concatenation of all fragments in that order; in
particular the fragments `["Hel", "lo"]` produce exactly the two calls
`onChunk "Hel"`, `onChunk "lo"` and content `"Hello"`. -/
theorem streaming_chunks_in_order_and_concat (fragments : List String) :
    (sendMessageRun fragments).onChunkCalls = fragments ∧
    (sendMessageRun fragments).content = String.join fragments ∧
    sendMessageRun ["Hel", "lo"] = ⟨"Hello", ["Hel", "lo"]⟩ := by
  refine ⟨?_, ?_, by decide⟩
  · simp [sendMessageRun, sendMessageFoldAux]
  · simp only [sendMessageRun, sendMessageFoldAux]
    apply String.ext
    simp [String.data_append]

/-- C7: whenever a non-empty tool set is supplied, `sendMessage` configures
the stream with `maxSteps = 5`, so at most 5 tool-use steps are executed no
matter how many the model response requests; in particular a response
requesting 6 sequential tool-use steps gets exactly 5 executed. -/
theorem tool_step_cap_five (ts : List String) (requested : Nat)
    (h : ts ≠ []) :
    (mkStreamConfig (some ts)).maxSteps = some 5 ∧
    executedToolSteps (mkStreamConfig (some ts)) requested ≤ 5 ∧
    executedToolSteps (mkStreamConfig (some ts)) 6 = 5 := by
  have hlen : 0 < ts.length := List.length_pos.mpr h
  refine ⟨?_, ?_, ?_⟩
  · simp [mkStreamConfig, hlen]
  · simp [mkStreamConfig, hlen, executedToolSteps]
  · simp [mkStreamConfig, hlen, executedToolSteps]

/-- C7 witness: the cap at a concrete tool set and a 6-step request. -/
theorem tool_step_cap_five_witness :
    (mkStreamConfig (some ["web-search"])).maxSteps = some 5 ∧
    executedToolSteps (mkStreamConfig (some ["web-search"])) 6 ≤ 5 ∧
    executedToolSteps (mkStreamConfig (some ["web-search"])) 6 = 5 := by
  have h := tool_step_cap_five ["web-search"] 6 (by decide)
  exact ⟨h.1, h.2.1, h.2.2⟩

/-- C1: in tool mode, `getAiResponse` does send the full formatted history,
but the `tools` argument it passes to `sendMessage` is `none` (JavaScript
`undefined`) even at a turn where the registry's enabled set is the
non-empty `["web-search"]` — it never equals the enabled set, contradicting
the claim.  The history `[{role := "user", content := "hi"}]` is forwarded
in full, so the failure is precisely in the tools argument. -/
theorem tool_mode_sendMessage_receives_no_tools :
    (getAiResponseSendCall [⟨"user", "hi"⟩] ["web-search"]).tools = none ∧
    (getAiResponseSendCall [⟨"user", "hi"⟩] ["web-search"]).tools ≠
      some ["web-search"] ∧
    (getAiResponseSendCall [⟨"user", "hi"⟩] ["web-search"]).messages =
      [⟨"user", "hi"⟩] := by
  refine ⟨rfl, by decide, rfl⟩

/-- C2 counterexample: a turn of the tool-mode chat loop on which the model
gateway fails.  The run ends in the `fatal` outcome (the exception
propagates out of `chatLoop` to the top-level handler, which exits the
process), the only message persisted for the turn is the user message, and
no assistant error-marker message exists — contradicting the claim that
every gateway failure is recorded as a conversation message with a
retry-or-stop choice. -/
theorem gateway_error_in_chat_loop_is_fatal :
    chatLoopRun ⟨[], []⟩ [ChatEvent.input "hello" (Except.error "network down")]
      = LoopResult.fatal ⟨[⟨"user", "hello"⟩], []⟩ "network down" ∧
    (stateOf (chatLoopRun ⟨[], []⟩
        [ChatEvent.input "hello" (Except.error "network down")])).messages.filter
      (fun m => m.role == "assistant") = [] := by
  refine ⟨by decide, by decide⟩

/-- C2 (amended): gateway-failure recovery exists only in the agent loop.
In the tool-mode chat loop a gateway failure on a processed turn propagates
out of the loop as a fatal outcome, with the user message persisted but no
error-marker assistant message and no retry prompt; in the agent loop the
failure is recorded as an `Error: ...` assistant message and the user's
retry-or-stop answer decides between continuing the loop and ending the
session. -/
theorem gateway_error_recovery_split (st : LoopState) (ast : AgentState)
    (s e : String) (rest : List ChatEvent) (arest : List AgentEvent)
    (answer : Bool) (h : toLowerCase s ≠ "exit") :
    chatLoopRun st (ChatEvent.input s (Except.error e) :: rest)
      = LoopResult.fatal ⟨st.messages ++ [⟨"user", s⟩], st.titleCalls⟩ e ∧
    agentLoopRun ast (AgentEvent.input s (Except.error e) answer :: arest)
      = (if answer then
          agentLoopRun
            ⟨ast.messages ++ [⟨"user", s⟩, ⟨"assistant", "Error: " ++ e⟩]⟩
            arest
         else
          AgentResult.exited
            ⟨ast.messages ++ [⟨"user", s⟩, ⟨"assistant", "Error: " ++ e⟩]⟩) := by
  constructor
  · simp [chatLoopRun, h]
  · simp [agentLoopRun, h]

/-- C2 witness: the recovery split at a concrete failing turn. -/
theorem gateway_error_recovery_split_witness :
    chatLoopRun ⟨[], []⟩ (ChatEvent.input "hi" (Except.error "boom") :: [])
      = LoopResult.fatal ⟨[⟨"user", "hi"⟩], []⟩ "boom" ∧
    agentLoopRun ⟨[]⟩ (AgentEvent.input "hi" (Except.error "boom") true :: [])
      = agentLoopRun ⟨[⟨"user", "hi"⟩, ⟨"assistant", "Error: boom"⟩]⟩ [] := by
  have h := gateway_error_recovery_split ⟨[], []⟩ ⟨[]⟩ "hi" "boom" [] [] true
    (by decide)
  exact ⟨h.1, by simpa using h.2⟩

/-- C4 counterexample: a tool-mode session with `["web-search"]` enabled
that the user cancels at the chat prompt.  The cancellation path calls
`process.exit(0)` directly, so the session ends with the enabled set still
`["web-search"]` — the registry is not reset on this exit path,
contradicting the claim that every exit path resets it. -/
theorem cancel_path_keeps_enabled_tools :
    startToolChatRun (enableTools ["web-search"]) ⟨[], []⟩ [ChatEvent.cancel]
      = some ⟨["web-search"], 0⟩ ∧
    (["web-search"] : List String) ≠ resetTools := by
  refine ⟨rfl, by decide⟩

/-- C4 (amended): the Tool Registry's enabled set is reset to empty on the
normal-completion exit path (exit sentinel) and on the error-termination
path, but on the user-cancellation paths the process exits directly without
resetting, leaving the enabled set as it was. -/
theorem reset_on_sentinel_and_error_only (enabled : List String)
    (st : LoopState) (e : String) (rest : List ChatEvent)
    (res : Except String String) :
    startToolChatRun enabled st (ChatEvent.cancel :: rest)
      = some ⟨enabled, 0⟩ ∧
    startToolChatRun enabled st (ChatEvent.input "exit" res :: rest)
      = some ⟨[], 0⟩ ∧
    startToolChatEnd enabled (LoopResult.fatal st e) = some ⟨[], 1⟩ ∧
    resetTools = ([] : List String) := by
  refine ⟨rfl, ?_, rfl, rfl⟩
  simp [startToolChatRun, chatLoopRun, startToolChatEnd, resetTools,
    show toLowerCase "exit" = "exit" by decide]

/-- Step equation of the tool-chat loop on the exit sentinel (helper). -/
theorem chatLoopRun_exit_step (st : LoopState) (s : String)
    (res : Except String String) (rest : List ChatEvent)
    (hs : toLowerCase s = "exit") :
    chatLoopRun st (ChatEvent.input s res :: rest) = LoopResult.exited st := by
  simp only [chatLoopRun]
  rw [if_pos hs]

/-- Step equation of the tool-chat loop on a gateway failure (helper). -/
theorem chatLoopRun_error_step (st : LoopState) (s e : String)
    (rest : List ChatEvent) (hs : ¬ toLowerCase s = "exit") :
    chatLoopRun st (ChatEvent.input s (Except.error e) :: rest)
      = LoopResult.fatal ⟨st.messages ++ [⟨"user", s⟩], st.titleCalls⟩ e := by
  simp only [chatLoopRun]
  rw [if_neg hs]

/-- Step equation of the tool-chat loop on a successful turn (helper). -/
theorem chatLoopRun_ok_step (st : LoopState) (s r : String)
    (rest : List ChatEvent) (hs : ¬ toLowerCase s = "exit") :
    chatLoopRun st (ChatEvent.input s (Except.ok r) :: rest)
      = chatLoopRun
          ⟨(st.messages ++ [⟨"user", s⟩]) ++ [⟨"assistant", r⟩],
            st.titleCalls ++
              (updateConversationTitle s
                (st.messages ++ [(⟨"user", s⟩ : Message)]).length).toList⟩
          rest := by
  simp only [chatLoopRun]
  rw [if_neg hs]

/-- Step equation of the tool-chat loop on the first successful turn of a
fresh conversation (helper): the observed count is 1, so the truncated
title is recorded. -/
theorem chatLoopRun_first_turn (s r : String) (rest : List ChatEvent)
    (hs : ¬ toLowerCase s = "exit") :
    chatLoopRun ⟨[], []⟩ (ChatEvent.input s (Except.ok r) :: rest)
      = chatLoopRun ⟨[⟨"user", s⟩, ⟨"assistant", r⟩], [titleFor s]⟩ rest := by
  simp only [chatLoopRun]
  rw [if_neg hs]
  rfl

/-- Step equation of the agent loop on the exit sentinel (helper). -/
theorem agentLoopRun_exit_step (ast : AgentState) (s : String)
    (gen : Except String AppGenResult) (answer : Bool)
    (arest : List AgentEvent) (hs : toLowerCase s = "exit") :
    agentLoopRun ast (AgentEvent.input s gen answer :: arest)
      = AgentResult.exited ast := by
  simp only [agentLoopRun]
  rw [if_pos hs]

/-- Step equation of the agent loop on a failed generation (helper). -/
theorem agentLoopRun_error_step (ast : AgentState) (s e : String)
    (answer : Bool) (arest : List AgentEvent)
    (hs : ¬ toLowerCase s = "exit") :
    agentLoopRun ast (AgentEvent.input s (Except.error e) answer :: arest)
      = (if answer then
          agentLoopRun
            ⟨(ast.messages ++ [⟨"user", s⟩]) ++
              [⟨"assistant", "Error: " ++ e⟩]⟩ arest
         else
          AgentResult.exited
            ⟨(ast.messages ++ [⟨"user", s⟩]) ++
              [⟨"assistant", "Error: " ++ e⟩]⟩) := by
  simp only [agentLoopRun]
  rw [if_neg hs]

/-- Step equation of the agent loop on a successful generation (helper). -/
theorem agentLoopRun_ok_step (ast : AgentState) (s : String)
    (r : AppGenResult) (answer : Bool) (arest : List AgentEvent)
    (hs : ¬ toLowerCase s = "exit") (hr : r.success = true) :
    agentLoopRun ast (AgentEvent.input s (Except.ok r) answer :: arest)
      = (if answer then
          agentLoopRun
            ⟨(ast.messages ++ [⟨"user", s⟩]) ++
              [⟨"assistant", responseMessage r⟩]⟩ arest
         else
          AgentResult.exited
            ⟨(ast.messages ++ [⟨"user", s⟩]) ++
              [⟨"assistant", responseMessage r⟩]⟩) := by
  simp only [agentLoopRun]
  rw [if_neg hs, if_pos hr]

/-- Step equation of the agent loop on a falsy generation result
(helper): it throws into the same catch as a generation error. -/
theorem agentLoopRun_noresult_step (ast : AgentState) (s : String)
    (r : AppGenResult) (answer : Bool) (arest : List AgentEvent)
    (hs : ¬ toLowerCase s = "exit") (hr : ¬ r.success = true) :
    agentLoopRun ast (AgentEvent.input s (Except.ok r) answer :: arest)
      = (if answer then
          agentLoopRun
            ⟨(ast.messages ++ [⟨"user", s⟩]) ++
              [⟨"assistant", "Error: Generation returned no result"⟩]⟩ arest
         else
          AgentResult.exited
            ⟨(ast.messages ++ [⟨"user", s⟩]) ++
              [⟨"assistant", "Error: Generation returned no result"⟩]⟩) := by
  simp only [agentLoopRun]
  rw [if_neg hs, if_neg hr]

/-- Once a conversation has at least one persisted message, the tool-chat
loop never calls `updateTitle` again (helper): at every later turn the
observed message count is at least 2. -/
theorem titleCalls_stable (events : List ChatEvent) :
    ∀ st : LoopState, st.messages ≠ [] →
      (stateOf (chatLoopRun st events)).titleCalls = st.titleCalls := by
  induction events with
  | nil => intro st h; rfl
  | cons ev rest ih =>
    intro st h
    cases ev with
    | cancel => rfl
    | input s res =>
      by_cases hs : toLowerCase s = "exit"
      · rw [chatLoopRun_exit_step st s res rest hs]
        rfl
      · cases res with
        | error e =>
          rw [chatLoopRun_error_step st s e rest hs]
          rfl
        | ok r =>
          have hupd : updateConversationTitle s
              (st.messages ++ [(⟨"user", s⟩ : Message)]).length = none := by
            simp [updateConversationTitle, h]
          rw [chatLoopRun_ok_step st s r rest hs, hupd]
          rw [show ((none : Option String)).toList = [] from rfl,
            List.append_nil]
          exact ih ⟨(st.messages ++ [⟨"user", s⟩]) ++ [⟨"assistant", r⟩],
            st.titleCalls⟩ (by simp)

/-- C5: the conversation title is derived from the first user message
exactly as specified — `updateTitle` is invoked only when the observed
message count equals 1, with the input itself when it has at most 50
characters and with its 50-character prefix plus an ellipsis when longer —
and over any run of the tool-chat loop it is invoked at most once, namely
on the first processed turn of an initially empty conversation, with the
truncated first input. -/
theorem title_update_first_turn_only (s t u r : String) (n : Nat)
    (st : LoopState) (events rest : List ChatEvent) :
    (n ≠ 1 → updateConversationTitle s n = none) ∧
    (t.length ≤ 50 → updateConversationTitle t 1 = some t) ∧
    (50 < u.length → updateConversationTitle u 1 = some (u.take 50 ++ "...")) ∧
    (st.messages ≠ [] →
      (stateOf (chatLoopRun st events)).titleCalls = st.titleCalls) ∧
    ((stateOf (chatLoopRun ⟨[], []⟩ events)).titleCalls).length ≤ 1 ∧
    (toLowerCase s ≠ "exit" →
      (stateOf (chatLoopRun ⟨[], []⟩
        (ChatEvent.input s (Except.ok r) :: rest))).titleCalls
        = [titleFor s]) := by
  refine ⟨?_, ?_, ?_, titleCalls_stable events st, ?_, ?_⟩
  · intro h
    simp [updateConversationTitle, h]
  · intro h
    have htake : t.take 50 = t := by
      apply String.ext
      rw [String.data_take]
      exact List.take_of_length_le h
    simp [updateConversationTitle, titleFor, Nat.not_lt.mpr h, htake,
      String.append_empty]
  · intro h
    simp [updateConversationTitle, titleFor, h]
  · cases events with
    | nil => exact Nat.zero_le 1
    | cons ev rest2 =>
      cases ev with
      | cancel => exact Nat.zero_le 1
      | input s2 res2 =>
        by_cases hs : toLowerCase s2 = "exit"
        · rw [chatLoopRun_exit_step _ s2 res2 rest2 hs]
          exact Nat.zero_le 1
        · cases res2 with
          | error e =>
            rw [chatLoopRun_error_step _ s2 e rest2 hs]
            exact Nat.zero_le 1
          | ok r2 =>
            rw [chatLoopRun_first_turn s2 r2 rest2 hs]
            rw [titleCalls_stable rest2
              ⟨[⟨"user", s2⟩, ⟨"assistant", r2⟩], [titleFor s2]⟩ (by simp)]
            exact Nat.le_refl 1
  · intro hs
    rw [chatLoopRun_first_turn s r rest hs]
    rw [titleCalls_stable rest
      ⟨[⟨"user", s⟩, ⟨"assistant", r⟩], [titleFor s]⟩ (by simp)]

/-- C5 witness: the title behaviour at concrete inputs — a non-first turn,
a short first message, a 60-character first message, a resumed conversation
(no further title call), and a fresh conversation's first turn. -/
theorem title_update_first_turn_only_witness :
    updateConversationTitle "Hello" 0 = none ∧
    updateConversationTitle "hi" 1 = some "hi" ∧
    updateConversationTitle
      "012345678901234567890123456789012345678901234567890123456789" 1
      = some
        ("012345678901234567890123456789012345678901234567890123456789".take 50
          ++ "...") ∧
    (stateOf (chatLoopRun ⟨[⟨"user", "x"⟩], ["T"]⟩
        [ChatEvent.input "hi" (Except.ok "ok")])).titleCalls = ["T"] ∧
    ((stateOf (chatLoopRun ⟨[], []⟩
        [ChatEvent.input "hi" (Except.ok "ok")])).titleCalls).length ≤ 1 ∧
    (stateOf (chatLoopRun ⟨[], []⟩
        [ChatEvent.input "Hello" (Except.ok "resp")])).titleCalls
      = [titleFor "Hello"] := by
  have h := title_update_first_turn_only "Hello" "hi"
    "012345678901234567890123456789012345678901234567890123456789" "resp" 0
    ⟨[⟨"user", "x"⟩], ["T"]⟩ [ChatEvent.input "hi" (Except.ok "ok")] []
  exact ⟨h.1 (by decide), h.2.1 (by decide), h.2.2.1 (by decide),
    h.2.2.2.1 (by decide), h.2.2.2.2.1, h.2.2.2.2.2 (by decide)⟩

/-- The prompt only ever resolves with an input its validator accepts
(helper). -/
theorem promptText_valid (validate : String → Option String) :
    ∀ (raws : List String) (s : String),
      promptText validate raws = some s → validate s = none := by
  intro raws
  induction raws with
  | nil =>
    intro s h
    simp [promptText] at h
  | cons raw rest ih =>
    intro s h
    simp only [promptText] at h
    cases hv : validate raw with
    | some e =>
      rw [hv] at h
      exact ih s h
    | none =>
      rw [hv] at h
      cases h
      exact hv

/-- C9: prompt-level validation.  An input the validator rejects causes an
in-place re-prompt (the prompt's outcome on `bad :: rest` equals its
outcome on `rest`), so a rejected input is never the value the prompt
resolves with; every resolved input passes the validator — for the
tool-chat prompt its trimmed form is non-empty, for the agent prompt it is
moreover at least 10 characters — hence no empty or too-short input is ever
persisted or sent to the gateway, and the failure never leaves the prompt
loop. -/
theorem prompt_validation_rejects_invalid (raws rest : List String)
    (s bad : String) :
    (promptText chatValidate raws = some s →
      chatValidate s = none ∧ (trimModel s).length ≠ 0) ∧
    (chatValidate bad ≠ none →
      promptText chatValidate (bad :: rest) = promptText chatValidate rest) ∧
    (promptText agentValidate raws = some s →
      agentValidate s = none ∧ 10 ≤ (trimModel s).length) ∧
    (agentValidate bad ≠ none →
      promptText agentValidate (bad :: rest) = promptText agentValidate rest) := by
  refine ⟨?_, ?_, ?_, ?_⟩
  · intro h
    have h0 := promptText_valid chatValidate raws s h
    refine ⟨h0, ?_⟩
    by_contra hlen
    simp [chatValidate, hlen] at h0
  · intro h
    obtain ⟨e, he⟩ := Option.ne_none_iff_exists'.mp h
    simp [promptText, he]
  · intro h
    have h0 := promptText_valid agentValidate raws s h
    refine ⟨h0, ?_⟩
    by_contra hlt
    have hlt' : (trimModel s).length < 10 := by omega
    by_cases h1 : (trimModel s).length = 0
    · simp [agentValidate, h1] at h0
    · simp [agentValidate, h1, hlt'] at h0
  · intro h
    obtain ⟨e, he⟩ := Option.ne_none_iff_exists'.mp h
    simp [promptText, he]

/-- C9 witness: concrete empty and whitespace inputs are skipped in place
and the eventually accepted input passes both validators. -/
theorem prompt_validation_rejects_invalid_witness :
    (chatValidate "tell me something nice" = none ∧
      (trimModel "tell me something nice").length ≠ 0) ∧
    promptText chatValidate ("  " :: ["ok"]) = promptText chatValidate ["ok"] ∧
    (agentValidate "tell me something nice" = none ∧
      10 ≤ (trimModel "tell me something nice").length) ∧
    promptText agentValidate ("  " :: ["ok"])
      = promptText agentValidate ["ok"] := by
  have h := prompt_validation_rejects_invalid
    ["", "   ", "tell me something nice"] ["ok"] "tell me something nice" "  "
  exact ⟨h.1 (by decide), h.2.1 (by decide), h.2.2.1 (by decide),
    h.2.2.2 (by decide)⟩

/-- No run of the tool-chat loop ever appends a user message whose
lowercased content is the exit sentinel (helper invariant). -/
theorem chat_no_exit_user_message (events : List ChatEvent) :
    ∀ st : LoopState,
      (∀ m ∈ st.messages, m.role = "user" → toLowerCase m.content ≠ "exit") →
      ∀ m ∈ (stateOf (chatLoopRun st events)).messages, m.role = "user" →
        toLowerCase m.content ≠ "exit" := by
  induction events with
  | nil => intro st h; exact h
  | cons ev rest ih =>
    intro st h
    cases ev with
    | cancel => exact h
    | input s res =>
      by_cases hs : toLowerCase s = "exit"
      · rw [chatLoopRun_exit_step st s res rest hs]
        exact h
      · have huser : ∀ m ∈ st.messages ++ [(⟨"user", s⟩ : Message)],
            m.role = "user" → toLowerCase m.content ≠ "exit" := by
          intro m hm hrole
          rcases List.mem_append.mp hm with h1 | h2
          · exact h m h1 hrole
          · simp only [List.mem_singleton] at h2
            subst h2
            exact hs
        cases res with
        | error e =>
          rw [chatLoopRun_error_step st s e rest hs]
          exact huser
        | ok r =>
          rw [chatLoopRun_ok_step st s r rest hs]
          apply ih
          intro m hm hrole
          rcases List.mem_append.mp hm with h1 | h2
          · exact huser m h1 hrole
          · simp only [List.mem_singleton] at h2
            subst h2
            exact absurd hrole
              (show ¬ ("assistant" : String) = "user" from by decide)

/-- No run of the agent loop ever appends a user message whose lowercased
content is the exit sentinel (helper invariant). -/
theorem agent_no_exit_user_message (events : List AgentEvent) :
    ∀ st : AgentState,
      (∀ m ∈ st.messages, m.role = "user" → toLowerCase m.content ≠ "exit") →
      ∀ m ∈ (agentStateOf (agentLoopRun st events)).messages, m.role = "user" →
        toLowerCase m.content ≠ "exit" := by
  induction events with
  | nil => intro st h; exact h
  | cons ev rest ih =>
    intro st h
    cases ev with
    | cancel => exact h
    | input s gen answer =>
      by_cases hs : toLowerCase s = "exit"
      · rw [agentLoopRun_exit_step st s gen answer rest hs]
        exact h
      · have hstep : ∀ content : String,
            ∀ m ∈ (st.messages ++ [(⟨"user", s⟩ : Message)]) ++
              [(⟨"assistant", content⟩ : Message)], m.role = "user" →
              toLowerCase m.content ≠ "exit" := by
          intro content m hm hrole
          rcases List.mem_append.mp hm with h1 | h2
          · rcases List.mem_append.mp h1 with h1a | h1b
            · exact h m h1a hrole
            · simp only [List.mem_singleton] at h1b
              subst h1b
              exact hs
          · simp only [List.mem_singleton] at h2
            subst h2
            exact absurd hrole
              (show ¬ ("assistant" : String) = "user" from by decide)
        cases gen with
        | error e =>
          rw [agentLoopRun_error_step st s e answer rest hs]
          cases answer with
          | true => exact ih _ (hstep ("Error: " ++ e))
          | false => exact hstep ("Error: " ++ e)
        | ok r =>
          by_cases hr : r.success = true
          · rw [agentLoopRun_ok_step st s r answer rest hs hr]
            cases answer with
            | true => exact ih _ (hstep (responseMessage r))
            | false => exact hstep (responseMessage r)
          · rw [agentLoopRun_noresult_step st s r answer rest hs hr]
            cases answer with
            | true => exact ih _ (hstep "Error: Generation returned no result")
            | false => exact hstep "Error: Generation returned no result"

/-- C10: the exit sentinel is matched case-insensitively, and matching it
terminates both loops before anything is persisted for that turn: on an
input whose lowercasing is "exit" the tool-chat loop and the agent loop
both end with the conversation state exactly as it was, and consequently no
run of either loop starting from an empty conversation ever contains a
persisted user message whose lowercased content is "exit". -/
theorem exit_sentinel_case_insensitive (st : LoopState) (ast : AgentState)
    (s : String) (res : Except String String)
    (gen : Except String AppGenResult) (answer : Bool)
    (rest : List ChatEvent) (arest : List AgentEvent)
    (events : List ChatEvent) (aevents : List AgentEvent) :
    (toLowerCase s = "exit" →
      chatLoopRun st (ChatEvent.input s res :: rest) = LoopResult.exited st ∧
      agentLoopRun ast (AgentEvent.input s gen answer :: arest)
        = AgentResult.exited ast) ∧
    (∀ m ∈ (stateOf (chatLoopRun ⟨[], []⟩ events)).messages,
      m.role = "user" → toLowerCase m.content ≠ "exit") ∧
    (∀ m ∈ (agentStateOf (agentLoopRun ⟨[]⟩ aevents)).messages,
      m.role = "user" → toLowerCase m.content ≠ "exit") := by
  refine ⟨?_, ?_, ?_⟩
  · intro hs
    exact ⟨chatLoopRun_exit_step st s res rest hs,
      agentLoopRun_exit_step ast s gen answer arest hs⟩
  · exact chat_no_exit_user_message events ⟨[], []⟩ (by simp)
  · exact agent_no_exit_user_message aevents ⟨[]⟩ (by simp)

/-- C10 witness: uppercase and mixed-case sentinels terminate both loops
with nothing persisted, and a persisted ordinary message is not the
sentinel. -/
theorem exit_sentinel_case_insensitive_witness :
    (chatLoopRun ⟨[], []⟩ [ChatEvent.input "EXIT" (Except.ok "r")]
      = LoopResult.exited ⟨[], []⟩ ∧
    agentLoopRun ⟨[]⟩ [AgentEvent.input "EXIT" (Except.error "boom") true]
      = AgentResult.exited ⟨[]⟩) ∧
    toLowerCase "Hi" ≠ "exit" := by
  constructor
  · exact (exit_sentinel_case_insensitive ⟨[], []⟩ ⟨[]⟩ "EXIT"
      (Except.ok "r") (Except.error "boom") true [] [] [] []).1 (by decide)
  · exact (exit_sentinel_case_insensitive ⟨[], []⟩ ⟨[]⟩ "EXIT"
      (Except.ok "r") (Except.error "boom") true [] []
      [ChatEvent.input "Hi" (Except.ok "ok")] []).2.1
      ⟨"user", "Hi"⟩ (by decide) rfl

/-- C8 counterexample: a present credential whose `expires_at` is far in
the past (`isTokenExpired` holds) still passes the chat entry point's
authentication gate whenever its session token resolves to a user — the
command proceeds instead of failing with an auth error, so an expired
credential is not rejected the way a missing one is. -/
theorem expired_credential_passes_auth_gate :
    isTokenExpired (some ⟨some "tok", none, none, none, some 0, none⟩) 1000000
      = true ∧
    getUserFromToken (some ⟨some "tok", none, none, none, some 0, none⟩)
      (fun a => if a = "tok" then some ⟨"u1", "Nia", "nia@mail"⟩ else none)
      = Except.ok ⟨"u1", "Nia", "nia@mail"⟩ := by
  exact ⟨by decide, rfl⟩

/-- C8 (amended): the chat entry points fail before any conversation is
created only for a credential that is absent or lacks an access token (or
whose token resolves to no user); they never consult `expires_at`, so an
expired-but-present credential is processed exactly like an unexpired one.
The separate `requireAuth` helper does reject both missing and expired
credentials, but the chat entry points' gate is `getUserFromToken`. -/
theorem auth_gate_ignores_expiry (c : Credential)
    (resolveUser : String → Option User) (x y : Option Int) (now : Int)
    (h : isTokenExpired (some c) now = true) :
    getUserFromToken none resolveUser
      = Except.error "Not authenticated. Please login first." ∧
    getUserFromToken (some { c with access_token := none }) resolveUser
      = Except.error "Not authenticated. Please login first." ∧
    getUserFromToken (some { c with expires_at := x }) resolveUser
      = getUserFromToken (some { c with expires_at := y }) resolveUser ∧
    exceptOk (requireAuth none now) = false ∧
    exceptOk (requireAuth (some c) now) = false := by
  refine ⟨rfl, rfl, ?_, rfl, ?_⟩
  · cases c
    rfl
  · simp [requireAuth, h, exceptOk]

/-- C8 witness: the expiry-blindness of the gate at a concrete expired
credential. -/
theorem auth_gate_ignores_expiry_witness :
    getUserFromToken none (fun _ => (none : Option User))
      = Except.error "Not authenticated. Please login first." ∧
    getUserFromToken
      (some { (⟨some "tok", none, none, none, some 0, none⟩ : Credential) with
        expires_at := some 0 }) (fun _ => (none : Option User))
      = getUserFromToken
        (some { (⟨some "tok", none, none, none, some 0, none⟩ : Credential) with
          expires_at := some 999999999 }) (fun _ => (none : Option User)) ∧
    exceptOk (requireAuth
      (some ⟨some "tok", none, none, none, some 0, none⟩) 1000000) = false := by
  have h := auth_gate_ignores_expiry
    ⟨some "tok", none, none, none, some 0, none⟩
    (fun _ => (none : Option User)) (some 0) (some 999999999) 1000000
    (by decide)
  exact ⟨h.1, h.2.2.1, h.2.2.2.2⟩

end AgentCli
